import Mathlib

/-!
Shallow embedding of the Financial Health Scoring Engine of the
finflowpro repository (source: the `useFinancialScore` hook, together with
the `getMonthlyStats` aggregator and the shared finance types).

Monetary amounts and scores are modelled as exact rationals (`ℚ`).  The
wall-clock values the hook derives from `new Date()` (the current month
key, the previous month key, the month before that, the number of days in
the current month and the current day of month) are modelled as an
explicit `RefDate` record, so every function below is a pure function of
`(transactions, refDate)`.
-/

namespace FinFlow

/-- Transaction type, from `types/finance.ts`: `'income' | 'expense'`. -/
inductive TxType where
  | income
  | expense
deriving DecidableEq, BEq, Repr

/-- Transaction record, from `types/finance.ts` (`interface Transaction`).
Dates are `YYYY-MM-DD` strings; the month key of a date is its first seven
characters, its day key the first ten. -/
structure Transaction where
  id : String
  ttype : TxType
  category : String
  amount : ℚ
  date : String
  description : Option String
  createdAt : String
deriving DecidableEq, Repr

/-- Monthly aggregate, from `types/finance.ts` (`interface MonthlyStats`). -/
structure MonthlyStats where
  totalIncome : ℚ
  totalExpense : ℚ
  balance : ℚ
  savingsRate : ℚ
deriving DecidableEq, Repr

/-- The `details` record nested in `PillarScore`. -/
structure PillarDetails where
  how : String
  improve : String
  impact : String
deriving DecidableEq, Repr

/-- Pillar score record (`interface PillarScore` in the hook file). -/
structure PillarScore where
  id : String
  name : String
  score : ℚ
  status : String
  phrase : String
  icon : String
  weight : ℚ
  details : PillarDetails
deriving DecidableEq, Repr

/-- The final report (`interface FinancialScore`). -/
structure FinancialScore where
  overall : ℚ
  status : String
  phrase : String
  pillars : List PillarScore
  hasData : Bool
deriving DecidableEq, Repr

/-- Reference date: the values the hook derives from `new Date()`.
`currentMonth` and `prevMonth` and `prevPrevMonth` are `YYYY-MM` keys;
`daysInMonth` is the day count of the current month, `dayOfMonth` the
current day of month (`now.getDate()`). -/
structure RefDate where
  currentMonth : String
  prevMonth : String
  prevPrevMonth : String
  daysInMonth : Nat
  dayOfMonth : Nat
deriving DecidableEq, Repr

/-- A valid calendar date has day-of-month at least 1 and a month of at
least one day (every real month has 28 to 31 days). -/
def validRefDate (now : RefDate) : Prop :=
  1 ≤ now.dayOfMonth ∧ 1 ≤ now.daysInMonth

instance (now : RefDate) : Decidable (validRefDate now) := by
  unfold validRefDate; infer_instance

/-- Status banding (`getStatus`): `≥80` Excelente, `≥60` Saudável,
`≥40` Atenção, otherwise Crítico. -/
def getStatus (score : ℚ) : String :=
  if score ≥ 80 then "Excelente"
  else if score ≥ 60 then "Saudável"
  else if score ≥ 40 then "Atenção"
  else "Crítico"

/-- Clamp to `[0, 100]` (`clamp(value, min = 0, max = 100)`; every call
site uses the default bounds, which are inlined here). -/
def clamp (value : ℚ) : ℚ :=
  min 100 (max 0 value)

/-- Models JavaScript `Math.round`: round to nearest, ties toward `+∞`. -/
def mathRound (x : ℚ) : ℤ :=
  ⌊x + 1 / 2⌋

/-- Models `Number.prototype.toFixed(0)` for the display strings. -/
def toFixed0 (x : ℚ) : String :=
  toString (mathRound x)

/-- Models `Number.prototype.toFixed(1)` for the display strings. -/
def toFixed1 (x : ℚ) : String :=
  let n : ℤ := mathRound (x * 10)
  let sign := if n < 0 then "-" else ""
  let m := n.natAbs
  sign ++ toString (m / 10) ++ "." ++ toString (m % 10)

/-- Substring containment, modelling JavaScript `String.includes`. -/
def strIncludes (s k : String) : Bool :=
  s.toList.tails.any (fun t => k.toList.isPrefixOf t)

/-- The fixed impulse keyword list (`IMPULSE_KEYWORDS`). -/
def IMPULSE_KEYWORDS : List String :=
  ["lazer", "entretenimento", "outros", "impulso", "compras", "shopping"]

/-- Heuristic impulse-category test (`isImpulseCategory`): the lowercased
category name contains one of the keywords. -/
def isImpulseCategory (category : String) : Bool :=
  IMPULSE_KEYWORDS.any (fun k => strIncludes category.toLower k)

/-- Monthly aggregator (`getMonthlyStats` in `useTransactions`; the
`useSupabaseTransactions` copy is line-for-line identical). -/
def getMonthlyStats (txs : List Transaction) (month : String) : MonthlyStats :=
  let monthTransactions := txs.filter (fun t => t.date.take 7 == month)
  let totalIncome :=
    ((monthTransactions.filter (fun t => t.ttype == TxType.income)).map Transaction.amount).sum
  let totalExpense :=
    ((monthTransactions.filter (fun t => t.ttype == TxType.expense)).map Transaction.amount).sum
  let balance := totalIncome - totalExpense
  let savingsRate := if totalIncome > 0 then balance / totalIncome * 100 else 0
  { totalIncome := totalIncome, totalExpense := totalExpense,
    balance := balance, savingsRate := savingsRate }

/-- Transactions of the current month (`currentMonthTxs`). -/
def currentMonthTxs (txs : List Transaction) (now : RefDate) : List Transaction :=
  txs.filter (fun t => t.date.take 7 == now.currentMonth)

/-- Transactions of the previous month (`prevMonthTxs`). -/
def prevMonthTxs (txs : List Transaction) (now : RefDate) : List Transaction :=
  txs.filter (fun t => t.date.take 7 == now.prevMonth)

/-- Total impulse spend of a transaction list: sum of the amounts of its
expense transactions whose category is an impulse category (`totalImpulse`
and `prevImpulse` in the hook). -/
def totalImpulse (l : List Transaction) : ℚ :=
  ((l.filter (fun t => t.ttype == TxType.expense && isImpulseCategory t.category)).map
    Transaction.amount).sum

/-- Current-month impulse share (`impulsePercent`): impulse spend over
total expense, with fallback `0` when the month has no positive expense. -/
def impulsePercent (txs : List Transaction) (now : RefDate) : ℚ :=
  let totalExpense := (getMonthlyStats txs now.currentMonth).totalExpense
  if totalExpense > 0 then totalImpulse (currentMonthTxs txs now) / totalExpense else 0

/-- Previous-month impulse share (`prevImpulsePercent`, recomputed
verbatim as `prevImpulsePercent2` for the Growth pillar). -/
def prevImpulsePercent (txs : List Transaction) (now : RefDate) : ℚ :=
  if (getMonthlyStats txs now.prevMonth).totalExpense > 0 then
    totalImpulse (prevMonthTxs txs now) / (getMonthlyStats txs now.prevMonth).totalExpense
  else 0

/-- Impulse banding of the hook (the `if` chain on `impulsePercent`, used
both for the current month and, without the bonus, for the previous
month's `prevImpulseScore2`). -/
def impulseBand (p : ℚ) : ℚ :=
  if p > 0.4 then 20
  else if p > 0.3 then 40
  else if p > 0.2 then 60
  else if p > 0.1 then 80
  else 100

/-- Full Impulse score: the band of the current share, plus the clamped
`+5` bonus when the share dropped below the previous month's share. -/
def impulseFull (p prev : ℚ) : ℚ :=
  if p < prev then clamp (impulseBand p + 5) else impulseBand p

/-- The Impulse pillar score of the report (`impulseScore`). -/
def impulseScore (txs : List Transaction) (now : RefDate) : ℚ :=
  impulseFull (impulsePercent txs now) (prevImpulsePercent txs now)

/-- Days elapsed in the current month (`Math.min(now.getDate(), daysInMonth)`). -/
def daysElapsed (now : RefDate) : Nat :=
  min now.dayOfMonth now.daysInMonth

/-- Number of distinct days of the current month carrying at least one
transaction (`uniqueDays`, the size of the `Set` of day keys). -/
def uniqueDays (txs : List Transaction) (now : RefDate) : Nat :=
  (((currentMonthTxs txs now).map (fun t => t.date.take 10)).dedup).length

/-- Consistency base score (`consistencyBase = (uniqueDays / daysElapsed) * 100`). -/
def consistencyBase (txs : List Transaction) (now : RefDate) : ℚ :=
  ((uniqueDays txs now : ℚ) / (daysElapsed now : ℚ)) * 100

/-- The distinct day keys of the current month that carry expenses (the
keys of the `dailyAmounts` record). -/
def expenseDayKeys (txs : List Transaction) (now : RefDate) : List String :=
  ((((currentMonthTxs txs now).filter (fun t => t.ttype == TxType.expense)).map
    (fun t => t.date.take 10)).dedup)

/-- Total expense of the current month on one day key (one entry of the
`dailyAmounts` record). -/
def dayExpenseTotal (txs : List Transaction) (now : RefDate) (d : String) : ℚ :=
  (((currentMonthTxs txs now).filter
      (fun t => t.ttype == TxType.expense && t.date.take 10 == d)).map
    Transaction.amount).sum

/-- Per-day expense totals (`dailyValues = Object.values(dailyAmounts)`). -/
def dailyValues (txs : List Transaction) (now : RefDate) : List ℚ :=
  (expenseDayKeys txs now).map (dayExpenseTotal txs now)

/-- Mean daily expense (`avgDaily`), `0` when no day has expenses. -/
def avgDaily (txs : List Transaction) (now : RefDate) : ℚ :=
  let dv := dailyValues txs now
  if dv.length > 0 then dv.sum / (dv.length : ℚ) else 0

/-- Spike detection (`hasSpike`): some day's expense exceeds three times
the mean daily expense. -/
def hasSpike (txs : List Transaction) (now : RefDate) : Bool :=
  (dailyValues txs now).any (fun v => decide (v > avgDaily txs now * 3))

/-- The Consistency pillar score (`consistencyScore`): the clamped base,
lowered by a clamped `-10` spike penalty. -/
def consistencyScore (txs : List Transaction) (now : RefDate) : ℚ :=
  let base := clamp (consistencyBase txs now)
  if hasSpike txs now then clamp (base - 10) else base

/-- All-time reserve balance (`reserveBalance`): all-time income minus
all-time expense over the whole transaction list. -/
def reserveBalance (txs : List Transaction) : ℚ :=
  ((txs.filter (fun t => t.ttype == TxType.income)).map Transaction.amount).sum -
    ((txs.filter (fun t => t.ttype == TxType.expense)).map Transaction.amount).sum

/-- The last three month keys (`last3Months`, offsets `-2, -1, 0`). -/
def last3Months (now : RefDate) : List String :=
  [now.prevPrevMonth, now.prevMonth, now.currentMonth]

/-- Average monthly expense over the last three months (`avgMonthlyExpense`). -/
def avgMonthlyExpense (txs : List Transaction) (now : RefDate) : ℚ :=
  (((last3Months now).map (fun m => (getMonthlyStats txs m).totalExpense)).sum) / 3

/-- Months of reserve (`reserveMonths`), `0` when the average monthly
expense is not positive. -/
def reserveMonths (txs : List Transaction) (now : RefDate) : ℚ :=
  if avgMonthlyExpense txs now > 0 then reserveBalance txs / avgMonthlyExpense txs now else 0

/-- Reserve banding (the `if` chain on `reserveMonths`). -/
def reserveBand (m : ℚ) : ℚ :=
  if m < 0.5 then 20
  else if m < 1 then 40
  else if m < 2 then 70
  else if m < 3 then 90
  else 100

/-- The Reserve pillar score (`reserveScore`). -/
def reserveScore (txs : List Transaction) (now : RefDate) : ℚ :=
  reserveBand (reserveMonths txs now)

/-- Current-month income commitment (`commitment`): expense over income,
with worst-case fallback `1` when the month has no positive income. -/
def commitment (txs : List Transaction) (now : RefDate) : ℚ :=
  if (getMonthlyStats txs now.currentMonth).totalIncome > 0 then
    (getMonthlyStats txs now.currentMonth).totalExpense /
      (getMonthlyStats txs now.currentMonth).totalIncome
  else 1

/-- Risk banding (the `if` chain on `commitment`, reused for the previous
month's `prevRiskScore`). -/
def riskBand (c : ℚ) : ℚ :=
  if c > 1.0 then 20
  else if c > 0.9 then 40
  else if c > 0.7 then 60
  else if c > 0.5 then 80
  else 100

/-- The Risk pillar score (`riskScore`). -/
def riskScore (txs : List Transaction) (now : RefDate) : ℚ :=
  riskBand (commitment txs now)

/-- Previous-month Impulse band (`prevImpulseScore2`, computed without the
bonus). -/
def prevImpulseScore2 (txs : List Transaction) (now : RefDate) : ℚ :=
  impulseBand (prevImpulsePercent txs now)

/-- Previous-month commitment (`prevCommitment`). -/
def prevCommitment (txs : List Transaction) (now : RefDate) : ℚ :=
  if (getMonthlyStats txs now.prevMonth).totalIncome > 0 then
    (getMonthlyStats txs now.prevMonth).totalExpense /
      (getMonthlyStats txs now.prevMonth).totalIncome
  else 1

/-- Previous-month Risk band (`prevRiskScore`). -/
def prevRiskScore (txs : List Transaction) (now : RefDate) : ℚ :=
  riskBand (prevCommitment txs now)

/-- Distinct transaction days of the previous month (the `Set` size in the
Growth comparison). -/
def prevUniqueDays (txs : List Transaction) (now : RefDate) : Nat :=
  (((prevMonthTxs txs now).map (fun t => t.date.take 10)).dedup).length

/-- Number of improved pillars (`improved`): the count of the four boolean
comparisons that hold. -/
def improvedCount (txs : List Transaction) (now : RefDate) : Nat :=
  (([decide (impulseScore txs now > prevImpulseScore2 txs now),
     decide ((uniqueDays txs now : ℚ) / (daysElapsed now : ℚ) >
       (prevUniqueDays txs now : ℚ) / 28),
     decide (reserveScore txs now ≥ 70),
     decide (riskScore txs now > prevRiskScore txs now)] : List Bool).filter
    (fun b => b)).length

/-- The Growth pillar score (`growthScore`): banded on the improved-pillar
count, then forced to 75 when the previous month has no transactions. -/
def growthScore (txs : List Transaction) (now : RefDate) : ℚ :=
  let improved := improvedCount txs now
  let banded : ℚ :=
    if improved ≥ 3 then 90
    else if improved ≥ 1 then 75
    else if improved = 0 then 65
    else 40
  if (prevMonthTxs txs now).length = 0 then 75 else banded

/-- The overall score (`overall`): the rounded weighted sum of the five
pillar scores. -/
def overallScore (txs : List Transaction) (now : RefDate) : ℚ :=
  ((mathRound (impulseScore txs now * 0.25 + consistencyScore txs now * 0.20 +
    reserveScore txs now * 0.20 + riskScore txs now * 0.20 +
    growthScore txs now * 0.15) : ℤ) : ℚ)

/-- The overall phrase (`overallPhrase`). -/
def overallPhrase (txs : List Transaction) (now : RefDate) : String :=
  if overallScore txs now ≥ 80 then "Sua saúde financeira está excelente! Continue assim."
  else if overallScore txs now ≥ 60 then
    "Você está no caminho certo. Pequenos ajustes farão grande diferença."
  else if overallScore txs now ≥ 40 then "Atenção necessária. Revise seus hábitos financeiros."
  else "Situação crítica. Agir agora pode mudar seu cenário rapidamente."

/-- The degenerate pillar list of the no-data report (`buildEmptyPillars`). -/
def buildEmptyPillars : List PillarScore :=
  [{ id := "impulso", name := "Controle de Impulso", score := 0, status := "Crítico",
     icon := "Zap", weight := 25,
     phrase := "Registre transações para calcular.",
     details := { how := "", improve := "", impact := "" } },
   { id := "consistencia", name := "Consistência", score := 0, status := "Crítico",
     icon := "CalendarCheck", weight := 20,
     phrase := "Registre transações para calcular.",
     details := { how := "", improve := "", impact := "" } },
   { id := "reserva", name := "Reserva", score := 0, status := "Crítico",
     icon := "Shield", weight := 20,
     phrase := "Registre transações para calcular.",
     details := { how := "", improve := "", impact := "" } },
   { id := "risco", name := "Risco Financeiro", score := 0, status := "Crítico",
     icon := "AlertTriangle", weight := 20,
     phrase := "Registre transações para calcular.",
     details := { how := "", improve := "", impact := "" } },
   { id := "crescimento", name := "Crescimento", score := 0, status := "Crítico",
     icon := "TrendingUp", weight := 15,
     phrase := "Registre transações para calcular.",
     details := { how := "", improve := "", impact := "" } }]

/-- The scoring engine (`useFinancialScore`), as a pure function of the
transaction snapshot and the reference date.  When the current month has
no transactions it short-circuits to the degenerate no-data report;
otherwise it assembles the five pillar records and the overall score. -/
def useFinancialScore (txs : List Transaction) (now : RefDate) : FinancialScore :=
  if (currentMonthTxs txs now).length = 0 then
    { overall := 0, status := "Crítico",
      phrase := "Registre suas transações para desbloquear seu score completo.",
      hasData := false, pillars := buildEmptyPillars }
  else
    let impulsePct := toFixed0 (impulsePercent txs now * 100)
    let impulseStatus := getStatus (impulseScore txs now)
    let baseStr := toFixed0 (consistencyBase txs now)
    let reserveStr := toFixed1 (reserveMonths txs now)
    let commitmentPct := toFixed0 (commitment txs now * 100)
    let improvedStr := toString (improvedCount txs now)
    { overall := overallScore txs now,
      status := getStatus (overallScore txs now),
      phrase := overallPhrase txs now,
      hasData := true,
      pillars :=
        [{ id := "impulso", name := "Controle de Impulso",
           score := impulseScore txs now, status := getStatus (impulseScore txs now),
           icon := "Zap", weight := 25,
           phrase :=
             if impulseScore txs now ≥ 80 then "Você está controlando bem seus impulsos."
             else if impulseScore txs now ≥ 60 then "Seus gastos por impulso estão moderados."
             else "Seus gastos por impulso estão elevados.",
           details :=
             { how := s!"Calculado com base na proporção de gastos em categorias de impulso (lazer, compras, outros) em relação ao total de saídas do mês. Quanto menor essa proporção, maior a pontuação. Sua taxa atual é {impulsePct}%.",
               improve := "Evite compras por impulso. Crie uma regra de espera de 24h antes de qualquer compra não planejada. Reduza os gastos em categorias de lazer e entretenimento.",
               impact := s!"Este pilar representa 25% do seu score geral. Melhorar de \"{impulseStatus}\" para \"Saudável\" adicionaria até 10 pontos ao seu score final." } },
         { id := "consistencia", name := "Consistência",
           score := consistencyScore txs now, status := getStatus (consistencyScore txs now),
           icon := "CalendarCheck", weight := 20,
           phrase :=
             if consistencyScore txs now ≥ 80 then "Você mantém registro disciplinado."
             else if consistencyScore txs now ≥ 60 then
               "Seu registro está regular, mas pode melhorar."
             else "Registrar diariamente melhora sua precisão financeira.",
           details :=
             { how := s!"Calculado com base nos dias com registros em relação aos dias transcorridos do mês. Você registrou transações em {uniqueDays txs now} de {daysElapsed now} dias ({baseStr}%). Picos extremos de gasto reduzem a pontuação.",
               improve := "Registre suas transações diariamente, mesmo as pequenas. Use o botão \"Nova Transação\" sempre que realizar um pagamento.",
               impact := "Este pilar representa 20% do seu score geral. Manter registros diários pode elevar este pilar para \"Excelente\"." } },
         { id := "reserva", name := "Reserva",
           score := reserveScore txs now, status := getStatus (reserveScore txs now),
           icon := "Shield", weight := 20,
           phrase :=
             if reserveScore txs now ≥ 80 then "Você tem proteção financeira sólida."
             else if reserveScore txs now ≥ 60 then "Sua reserva está crescendo."
             else "Sua reserva está vulnerável.",
           details :=
             { how := s!"Calculado dividindo seu saldo acumulado pela média de gastos mensais dos últimos 3 meses. Você tem aproximadamente {reserveStr} mês(es) de reserva. O ideal é ter ao menos 3 meses.",
               improve := "Separe ao menos 10% da sua renda mensalmente para reserva de emergência. Considere uma conta separada exclusiva para este fim.",
               impact := "Este pilar representa 20% do seu score geral. Atingir 3 meses de reserva elevaria sua pontuação para 100 neste pilar." } },
         { id := "risco", name := "Risco Financeiro",
           score := riskScore txs now, status := getStatus (riskScore txs now),
           icon := "AlertTriangle", weight := 20,
           phrase :=
             if riskScore txs now ≥ 80 then "Sua estrutura financeira está equilibrada."
             else if riskScore txs now ≥ 60 then "Seu comprometimento está moderado."
             else "Seu comprometimento de renda está elevado.",
           details :=
             { how := s!"Calculado pela proporção entre saídas e entradas do mês. Você comprometeu {commitmentPct}% da sua renda. Abaixo de 50% é o ideal para ter segurança financeira.",
               improve := "Reduza gastos fixos e variáveis. Busque fontes de renda adicional. Evite parcelamentos que aumentem o comprometimento mensal.",
               impact := "Este pilar representa 20% do seu score geral. Reduzir o comprometimento abaixo de 50% elevaria este pilar para \"Excelente\"." } },
         { id := "crescimento", name := "Crescimento",
           score := growthScore txs now, status := getStatus (growthScore txs now),
           icon := "TrendingUp", weight := 15,
           phrase :=
             if growthScore txs now ≥ 80 then
               "Você evoluiu significativamente em relação ao mês anterior."
             else if growthScore txs now ≥ 65 then "Sua performance está estável."
             else "Sua performance caiu este mês.",
           details :=
             { how := s!"Calculado comparando sua evolução nos outros pilares em relação ao mês anterior. Você melhorou em {improvedStr} pilar(es) comparado ao mês passado.",
               improve := "Foque em melhorar ao menos 3 pilares a cada mês. Revise seus hábitos financeiros mensalmente e estabeleça metas pequenas e alcançáveis.",
               impact := "Este pilar representa 15% do seu score geral. Melhorar 3 ou mais pilares consecutivamente resultaria em pontuação máxima aqui." } }] }

/-! Concrete fixtures used by witnesses and counterexamples. -/

/-- A reference date in September 2025 (30 days, day 15). -/
def d0 : RefDate :=
  { currentMonth := "2025-09", prevMonth := "2025-08", prevPrevMonth := "2025-07",
    daysInMonth := 30, dayOfMonth := 15 }

/-- An income transaction of 5000 in September 2025. -/
def tx31 : Transaction :=
  { id := "t1", ttype := TxType.income, category := "salario", amount := 5000,
    date := "2025-09-05", description := none, createdAt := "2025-09-05" }

/-- An expense transaction of 5000 in September 2025 (non-impulse category). -/
def tx32 : Transaction :=
  { id := "t2", ttype := TxType.expense, category := "aluguel", amount := 5000,
    date := "2025-09-10", description := none, createdAt := "2025-09-10" }

/-- Fixture: the current month has income 5000 and expense 5000. -/
def ex3 : List Transaction := [tx31, tx32]

/-- A reference date in January 2025 (31 days, day 3). -/
def d5 : RefDate :=
  { currentMonth := "2025-01", prevMonth := "2024-12", prevPrevMonth := "2024-11",
    daysInMonth := 31, dayOfMonth := 3 }

/-- An expense transaction of 10 on 2025-01-02 (non-impulse category). -/
def tx51 : Transaction :=
  { id := "t5", ttype := TxType.expense, category := "mercado", amount := 10,
    date := "2025-01-02", description := none, createdAt := "2025-01-02" }

/-- Fixture: one transaction day out of three elapsed days. -/
def ex5 : List Transaction := [tx51]

/-- An income transaction of 100 in January 2025. -/
def tx61 : Transaction :=
  { id := "t6a", ttype := TxType.income, category := "salario", amount := 100,
    date := "2025-01-10", description := none, createdAt := "2025-01-10" }

/-- An expense transaction of 50 in January 2025. -/
def tx62 : Transaction :=
  { id := "t6b", ttype := TxType.expense, category := "mercado", amount := 50,
    date := "2025-01-15", description := none, createdAt := "2025-01-15" }

/-- Fixture: income 100, expense 50 in January 2025. -/
def ex6 : List Transaction := [tx61, tx62]

/-! Helper lemmas shared by the claim theorems. -/

/-- With current-month data, the reported pillar scores are, in order, the
Impulse, Consistency, Reserve, Risk and Growth scores. -/
theorem pillars_map_score (txs : List Transaction) (now : RefDate)
    (h : (currentMonthTxs txs now).length ≠ 0) :
    (useFinancialScore txs now).pillars.map PillarScore.score =
      [impulseScore txs now, consistencyScore txs now, reserveScore txs now,
       riskScore txs now, growthScore txs now] := by
  unfold useFinancialScore
  rw [if_neg h]
  simp only [List.map_cons, List.map_nil]

/-- Evaluation of the aggregator on the `ex3` fixture's current month. -/
theorem ex3_stats :
    getMonthlyStats ex3 "2025-09" =
      { totalIncome := 5000, totalExpense := 5000, balance := 0, savingsRate := 0 } := by
  have hm : List.filter (fun t => t.date.take 7 == "2025-09") ex3 = ex3 := by decide
  have hi : List.filter (fun t => t.ttype == TxType.income) ex3 = [tx31] := by decide
  have he : List.filter (fun t => t.ttype == TxType.expense) ex3 = [tx32] := by decide
  simp only [getMonthlyStats, hm, hi, he, List.map_cons, List.map_nil, List.sum_cons,
    List.sum_nil, tx31, tx32]
  norm_num

/-- Evaluation of the commitment ratio on the `ex3` fixture. -/
theorem ex3_commitment : commitment ex3 d0 = 1 := by
  simp only [commitment, d0, ex3_stats]
  norm_num

/-- Evaluation of the Risk score on the `ex3` fixture. -/
theorem ex3_risk : riskScore ex3 d0 = 40 := by
  rw [riskScore, ex3_commitment]
  norm_num [riskBand]

/-- Evaluation of the per-day expense totals on the `ex5` fixture. -/
theorem ex5_dailyValues : dailyValues ex5 d5 = [10] := by
  have hk : expenseDayKeys ex5 d5 = ["2025-01-02"] := by decide
  have hf : List.filter
      (fun t => t.ttype == TxType.expense && t.date.take 10 == "2025-01-02")
      (currentMonthTxs ex5 d5) = [tx51] := by decide
  simp only [dailyValues, hk, List.map_cons, List.map_nil, dayExpenseTotal, hf, tx51,
    List.sum_cons, List.sum_nil]
  norm_num

/-- The `ex5` fixture has no expense spike. -/
theorem ex5_hasSpike : hasSpike ex5 d5 = false := by
  have ha : avgDaily ex5 d5 = 10 := by
    simp only [avgDaily, ex5_dailyValues, List.length_cons, List.length_nil, List.sum_cons,
      List.sum_nil]
    norm_num
  simp only [hasSpike, ex5_dailyValues, ha, List.any_cons, List.any_nil, Bool.or_false]
  norm_num

/-- Evaluation of the Consistency score on the `ex5` fixture: one
transaction day over three elapsed days gives the non-integral score
`100/3` (no rounding happens anywhere). -/
theorem ex5_consistency : consistencyScore ex5 d5 = 100 / 3 := by
  have hu : uniqueDays ex5 d5 = 1 := by decide
  have hd : daysElapsed d5 = 3 := by decide
  have hb : consistencyBase ex5 d5 = 100 / 3 := by
    simp only [consistencyBase, hu, hd]
    norm_num
  simp only [consistencyScore, ex5_hasSpike, Bool.false_eq_true, if_false, hb, clamp]
  rw [max_eq_right (by norm_num), min_eq_right (by norm_num)]

/-- Evaluation of the aggregator on the `ex6` fixture's January 2025. -/
theorem ex6_stats :
    getMonthlyStats ex6 "2025-01" =
      { totalIncome := 100, totalExpense := 50, balance := 50, savingsRate := 50 } := by
  have hm : List.filter (fun t => t.date.take 7 == "2025-01") ex6 = ex6 := by decide
  have hi : List.filter (fun t => t.ttype == TxType.income) ex6 = [tx61] := by decide
  have he : List.filter (fun t => t.ttype == TxType.expense) ex6 = [tx62] := by decide
  simp only [getMonthlyStats, hm, hi, he, List.map_cons, List.map_nil, List.sum_cons,
    List.sum_nil, tx61, tx62]
  norm_num

/-- The clamp always lands in `[0, 100]`. -/
theorem clamp_bounds (x : ℚ) : 0 ≤ clamp x ∧ clamp x ≤ 100 := by
  unfold clamp
  constructor
  · exact le_min (by norm_num) (le_max_left 0 x)
  · exact min_le_left 100 _

/-- The impulse band always lands in `[20, 100]`. -/
theorem impulseBand_bounds (p : ℚ) : 20 ≤ impulseBand p ∧ impulseBand p ≤ 100 := by
  unfold impulseBand
  split_ifs <;> norm_num

/-- The impulse band is antitone. -/
theorem impulseBand_antitone {p₁ p₂ : ℚ} (h : p₁ ≤ p₂) :
    impulseBand p₂ ≤ impulseBand p₁ := by
  unfold impulseBand
  split_ifs
  all_goals try norm_num
  all_goals linarith

/-- The full Impulse score is at least the band of its share. -/
theorem impulseBand_le_impulseFull (p q : ℚ) : impulseBand p ≤ impulseFull p q := by
  have h1 := (impulseBand_bounds p).1
  have h2 := (impulseBand_bounds p).2
  unfold impulseFull clamp
  split_ifs
  · exact le_min h2 (le_trans (by linarith) (le_max_right 0 (impulseBand p + 5)))
  · exact le_refl _

/-- The full Impulse score is at most five above the band of its share. -/
theorem impulseFull_le_band_add_five (p q : ℚ) : impulseFull p q ≤ impulseBand p + 5 := by
  have h1 := (impulseBand_bounds p).1
  unfold impulseFull clamp
  split_ifs
  · rw [max_eq_right (by linarith)]
    exact min_le_right 100 _
  · linarith

/-- The full Impulse score always lands in `[0, 100]`. -/
theorem impulseFull_bounds (p q : ℚ) : 0 ≤ impulseFull p q ∧ impulseFull p q ≤ 100 := by
  have h1 := (impulseBand_bounds p).1
  have h2 := (impulseBand_bounds p).2
  unfold impulseFull
  split_ifs
  · exact (clamp_bounds _)
  · constructor <;> linarith

/-- The reserve band always lands in `[20, 100]`. -/
theorem reserveBand_bounds (m : ℚ) : 20 ≤ reserveBand m ∧ reserveBand m ≤ 100 := by
  unfold reserveBand
  split_ifs <;> norm_num

/-- The risk band always lands in `[20, 100]`. -/
theorem riskBand_bounds (c : ℚ) : 20 ≤ riskBand c ∧ riskBand c ≤ 100 := by
  unfold riskBand
  split_ifs <;> norm_num

/-- The Growth score always lands in `[40, 90]`. -/
theorem growthScore_bounds (txs : List Transaction) (now : RefDate) :
    40 ≤ growthScore txs now ∧ growthScore txs now ≤ 90 := by
  simp only [growthScore]
  split_ifs <;> norm_num

/-- The Consistency score always lands in `[0, 100]`. -/
theorem consistencyScore_bounds (txs : List Transaction) (now : RefDate) :
    0 ≤ consistencyScore txs now ∧ consistencyScore txs now ≤ 100 := by
  unfold consistencyScore
  split_ifs
  · exact clamp_bounds _
  · exact clamp_bounds _

/-- Crossing a banding breakpoint drops the impulse band by at least 20. -/
theorem impulseBand_gap {p₁ p₂ b : ℚ}
    (hb : b = 0.1 ∨ b = 0.2 ∨ b = 0.3 ∨ b = 0.4)
    (h₁ : p₁ ≤ b) (h₂ : b < p₂) :
    impulseBand p₂ + 20 ≤ impulseBand p₁ := by
  rcases hb with rfl | rfl | rfl | rfl
  all_goals unfold impulseBand
  all_goals split_ifs
  all_goals try norm_num
  all_goals linarith

/-- The full Impulse score is antitone in the current share, for any fixed
previous-month share. -/
theorem impulseFull_antitone {p₁ p₂ : ℚ} (q : ℚ) (h : p₁ ≤ p₂) :
    impulseFull p₂ q ≤ impulseFull p₁ q := by
  have hband := impulseBand_antitone h
  by_cases hq : p₂ < q
  · have hq₁ : p₁ < q := lt_of_le_of_lt h hq
    unfold impulseFull
    rw [if_pos hq, if_pos hq₁]
    unfold clamp
    exact min_le_min (le_refl 100) (max_le_max (le_refl 0) (by linarith))
  · calc impulseFull p₂ q = impulseBand p₂ := by unfold impulseFull; rw [if_neg hq]
      _ ≤ impulseBand p₁ := hband
      _ ≤ impulseFull p₁ q := impulseBand_le_impulseFull p₁ q

/-- Crossing a banding breakpoint strictly drops the full Impulse score,
for any fixed previous-month share. -/
theorem impulseFull_strict {p₁ p₂ b : ℚ} (q : ℚ)
    (hb : b = 0.1 ∨ b = 0.2 ∨ b = 0.3 ∨ b = 0.4)
    (h₁ : p₁ ≤ b) (h₂ : b < p₂) :
    impulseFull p₂ q < impulseFull p₁ q := by
  have hgap := impulseBand_gap hb h₁ h₂
  have h₂le := impulseFull_le_band_add_five p₂ q
  have h₁ge := impulseBand_le_impulseFull p₁ q
  linarith

/-- Bounds survive `List.getD` with default `0`. -/
theorem getD_bounds : ∀ (l : List ℚ) (i : ℕ),
    (∀ x ∈ l, 0 ≤ x ∧ x ≤ 100) → 0 ≤ l.getD i 0 ∧ l.getD i 0 ≤ 100
  | [], i, _ => by
      simp only [List.getD_nil]
      norm_num
  | a :: l, 0, h => by
      simpa using h a (List.mem_cons_self a l)
  | a :: l, i + 1, h => by
      simpa [List.getD_cons_succ] using
        getD_bounds l i (fun x hx => h x (List.mem_cons_of_mem a hx))

/-! Claim theorems. -/

/-- C1: whenever the current month has at least one transaction, the
overall score of the report equals the rounded weighted sum of the five
reported pillar scores, with the pillar weights 25, 20, 20, 20, 15
(summing to 100). -/
theorem overall_is_rounded_weighted_sum (txs : List Transaction) (now : RefDate)
    (h : (currentMonthTxs txs now).length ≠ 0) :
    (useFinancialScore txs now).overall =
      ((mathRound (((useFinancialScore txs now).pillars.map
        (fun p => p.score * p.weight / 100)).sum) : ℤ) : ℚ) := by
  unfold useFinancialScore
  rw [if_neg h]
  simp only [List.map_cons, List.map_nil, List.sum_cons, List.sum_nil]
  unfold overallScore
  congr 2
  ring_nf

/-- C1 witness: the weighted-sum identity holds on the `ex3` fixture. -/
theorem overall_is_rounded_weighted_sum_witness :
    (currentMonthTxs ex3 d0).length ≠ 0 ∧
    (useFinancialScore ex3 d0).overall =
      ((mathRound (((useFinancialScore ex3 d0).pillars.map
        (fun p => p.score * p.weight / 100)).sum) : ℤ) : ℚ) :=
  ⟨by decide, overall_is_rounded_weighted_sum ex3 d0 (by decide)⟩

/-- C2: with zero current-month transactions the report is the degenerate
one (`hasData = false`, overall 0, status Crítico, all pillar scores 0
with status Crítico and empty detail strings); conversely `hasData` is
true exactly when the current month has at least one transaction. -/
theorem no_data_report_contract (txs : List Transaction) (now : RefDate) :
    ((currentMonthTxs txs now).length = 0 →
      (useFinancialScore txs now).hasData = false ∧
      (useFinancialScore txs now).overall = 0 ∧
      (useFinancialScore txs now).status = "Crítico" ∧
      ∀ p ∈ (useFinancialScore txs now).pillars,
        p.score = 0 ∧ p.status = "Crítico" ∧ p.details.how = "" ∧
        p.details.improve = "" ∧ p.details.impact = "") ∧
    ((useFinancialScore txs now).hasData = true ↔ (currentMonthTxs txs now).length ≠ 0) := by
  constructor
  · intro h
    unfold useFinancialScore
    rw [if_pos h]
    refine ⟨rfl, rfl, rfl, ?_⟩
    intro p hp
    simp only [buildEmptyPillars, List.mem_cons, List.not_mem_nil, or_false] at hp
    rcases hp with rfl | rfl | rfl | rfl | rfl
    all_goals exact ⟨rfl, rfl, rfl, rfl, rfl⟩
  · by_cases h : (currentMonthTxs txs now).length = 0
    · unfold useFinancialScore
      rw [if_pos h]
      simp [h]
    · unfold useFinancialScore
      rw [if_neg h]
      simp [h]

/-- C2 witness: the degenerate report on the empty transaction list. -/
theorem no_data_report_contract_witness :
    (useFinancialScore [] d0).hasData = false ∧ (useFinancialScore [] d0).overall = 0 ∧
    (useFinancialScore [] d0).status = "Crítico" :=
  ⟨((no_data_report_contract [] d0).1 (by decide)).1,
   ((no_data_report_contract [] d0).1 (by decide)).2.1,
   ((no_data_report_contract [] d0).1 (by decide)).2.2.1⟩

/-- C3 counterexample: with current-month income 5000 and expense 5000
the commitment ratio is exactly 1 but the Risk pillar score is 40, not 20
(the strict `> 1.0` comparison does not fire at exactly 1.0). -/
theorem risk_commitment_one_counterexample :
    commitment ex3 d0 = 1 ∧ riskScore ex3 d0 = 40 ∧
    ((useFinancialScore ex3 d0).pillars.map PillarScore.score).getD 3 0 = 40 ∧
    ((40 : ℚ) = 20 → False) := by
  refine ⟨ex3_commitment, ex3_risk, ?_, by norm_num⟩
  rw [pillars_map_score ex3 d0 (by decide)]
  simp only [List.getD_cons_succ, List.getD_cons_zero]
  exact ex3_risk

/-- C3 amended: income 5000 and expense 5000 in the current month give
commitment exactly 1.0 and Risk score 40 (the band for `0.9 < c ≤ 1.0`),
per the strict `>` breakpoints. -/
theorem risk_at_full_commitment (txs : List Transaction) (now : RefDate)
    (hi : (getMonthlyStats txs now.currentMonth).totalIncome = 5000)
    (he : (getMonthlyStats txs now.currentMonth).totalExpense = 5000) :
    commitment txs now = 1 ∧ riskScore txs now = 40 := by
  have hc : commitment txs now = 1 := by
    unfold commitment
    rw [hi, he]
    norm_num
  refine ⟨hc, ?_⟩
  rw [riskScore, hc]
  norm_num [riskBand]

/-- C3 amended witness: evaluated on the `ex3` fixture. -/
theorem risk_at_full_commitment_witness :
    commitment ex3 d0 = 1 ∧ riskScore ex3 d0 = 40 :=
  risk_at_full_commitment ex3 d0 (by simp [d0, ex3_stats]) (by simp [d0, ex3_stats])

/-- C4: the base Impulse score is the strict banding of the impulse
share: above 0.4 it is 20, in (0.3, 0.4] it is 40, in (0.2, 0.3] it is
60, in (0.1, 0.2] it is 80, at or below 0.1 it is 100; in particular at
exactly 0.4 it is 40, not 20. -/
theorem impulse_band_strict_breakpoints :
    (∀ p : ℚ, 0.4 < p → impulseBand p = 20) ∧
    (∀ p : ℚ, 0.3 < p → p ≤ 0.4 → impulseBand p = 40) ∧
    (∀ p : ℚ, 0.2 < p → p ≤ 0.3 → impulseBand p = 60) ∧
    (∀ p : ℚ, 0.1 < p → p ≤ 0.2 → impulseBand p = 80) ∧
    (∀ p : ℚ, p ≤ 0.1 → impulseBand p = 100) ∧
    impulseBand 0.4 = 40 := by
  refine ⟨?_, ?_, ?_, ?_, ?_, ?_⟩
  · intro p h1
    unfold impulseBand
    rw [if_pos h1]
  · intro p h1 h2
    unfold impulseBand
    split_ifs
    all_goals linarith
  · intro p h1 h2
    unfold impulseBand
    split_ifs
    all_goals linarith
  · intro p h1 h2
    unfold impulseBand
    split_ifs
    all_goals linarith
  · intro p h1
    unfold impulseBand
    split_ifs
    all_goals linarith
  · unfold impulseBand
    norm_num

/-- C4 witness: one sample point inside each band, and the breakpoint 0.4
itself. -/
theorem impulse_band_strict_breakpoints_witness :
    impulseBand 0.5 = 20 ∧ impulseBand 0.35 = 40 ∧ impulseBand 0.25 = 60 ∧
    impulseBand 0.15 = 80 ∧ impulseBand 0.05 = 100 ∧ impulseBand 0.4 = 40 :=
  ⟨impulse_band_strict_breakpoints.1 0.5 (by norm_num),
   impulse_band_strict_breakpoints.2.1 0.35 (by norm_num) (by norm_num),
   impulse_band_strict_breakpoints.2.2.1 0.25 (by norm_num) (by norm_num),
   impulse_band_strict_breakpoints.2.2.2.1 0.15 (by norm_num) (by norm_num),
   impulse_band_strict_breakpoints.2.2.2.2.1 0.05 (by norm_num),
   impulse_band_strict_breakpoints.2.2.2.2.2⟩

/-- C5 counterexample: on the `ex5` fixture (one transaction day, three
elapsed days) the reported Consistency score is `100/3`, which is not an
integer — the claim that every pillar score is an integer fails. -/
theorem consistency_score_nonintegral_counterexample :
    consistencyScore ex5 d5 = 100 / 3 ∧
    ((useFinancialScore ex5 d5).pillars.map PillarScore.score).getD 1 0 = 100 / 3 ∧
    ((⌊consistencyScore ex5 d5⌋ : ℚ) = consistencyScore ex5 d5 → False) := by
  refine ⟨ex5_consistency, ?_, ?_⟩
  · rw [pillars_map_score ex5 d5 (by decide)]
    simp only [List.getD_cons_succ, List.getD_cons_zero]
    exact ex5_consistency
  · rw [ex5_consistency]
    intro hcon
    have h33 : (⌊(100 : ℚ) / 3⌋ : ℤ) = 33 := by
      rw [Int.floor_eq_iff]
      norm_num
    rw [h33] at hcon
    norm_num at hcon

/-- C5 amended: every reported pillar score lies in the interval
`[0, 100]` (the Consistency score, unrounded, need not be an integer). -/
theorem pillar_scores_in_range (txs : List Transaction) (now : RefDate) (i : ℕ) :
    0 ≤ ((useFinancialScore txs now).pillars.map PillarScore.score).getD i 0 ∧
    ((useFinancialScore txs now).pillars.map PillarScore.score).getD i 0 ≤ 100 := by
  refine getD_bounds _ i ?_
  by_cases h : (currentMonthTxs txs now).length = 0
  · unfold useFinancialScore
    rw [if_pos h]
    intro x hx
    simp only [buildEmptyPillars, List.map_cons, List.map_nil, List.mem_cons,
      List.not_mem_nil, or_false] at hx
    rcases hx with rfl | rfl | rfl | rfl | rfl
    all_goals norm_num
  · rw [pillars_map_score txs now h]
    intro x hx
    simp only [List.mem_cons, List.not_mem_nil, or_false] at hx
    have hr := reserveBand_bounds (reserveMonths txs now)
    have hk := riskBand_bounds (commitment txs now)
    have hg := growthScore_bounds txs now
    rcases hx with rfl | rfl | rfl | rfl | rfl
    · exact impulseFull_bounds _ _
    · exact consistencyScore_bounds txs now
    · exact ⟨le_trans (by norm_num) hr.1, hr.2⟩
    · exact ⟨le_trans (by norm_num) hk.1, hk.2⟩
    · exact ⟨le_trans (by norm_num) hg.1, le_trans hg.2 (by norm_num)⟩

/-- C6 counterexample: income 100 and expense 50 give `savingsRate = 50`
(a percentage), not `balance / totalIncome = 1/2` — the claimed equation
fails on the code, which multiplies by 100. -/
theorem savings_rate_counterexample :
    (getMonthlyStats ex6 "2025-01").totalIncome = 100 ∧
    (getMonthlyStats ex6 "2025-01").balance = 50 ∧
    (getMonthlyStats ex6 "2025-01").savingsRate = 50 ∧
    ((getMonthlyStats ex6 "2025-01").savingsRate =
      (getMonthlyStats ex6 "2025-01").balance /
        (getMonthlyStats ex6 "2025-01").totalIncome → False) := by
  rw [ex6_stats]
  norm_num

/-- C6 amended: for every month key, `balance = totalIncome -
totalExpense`, and `savingsRate` is the percentage `balance / totalIncome
* 100` when income is positive and `0` otherwise. -/
theorem monthly_stats_balance_and_rate (txs : List Transaction) (month : String) :
    (getMonthlyStats txs month).balance =
      (getMonthlyStats txs month).totalIncome - (getMonthlyStats txs month).totalExpense ∧
    (getMonthlyStats txs month).savingsRate =
      (if (getMonthlyStats txs month).totalIncome > 0 then
        (getMonthlyStats txs month).balance / (getMonthlyStats txs month).totalIncome * 100
      else 0) := by
  constructor <;> rfl

/-- C7: when the previous calendar month has zero transactions and the
current month has at least one, the Growth pillar score is forced to 75,
regardless of the four improvement comparisons. -/
theorem growth_first_month_grace (txs : List Transaction) (now : RefDate)
    (hprev : (prevMonthTxs txs now).length = 0)
    (hcur : (currentMonthTxs txs now).length ≠ 0) :
    growthScore txs now = 75 ∧
    ((useFinancialScore txs now).pillars.map PillarScore.score).getD 4 0 = 75 := by
  have hg : growthScore txs now = 75 := by
    simp [growthScore, hprev]
  refine ⟨hg, ?_⟩
  rw [pillars_map_score txs now hcur]
  simp only [List.getD_cons_succ, List.getD_cons_zero]
  exact hg

/-- C7 witness: the `ex3` fixture has no previous-month transactions. -/
theorem growth_first_month_grace_witness :
    growthScore ex3 d0 = 75 ∧
    ((useFinancialScore ex3 d0).pillars.map PillarScore.score).getD 4 0 = 75 :=
  growth_first_month_grace ex3 d0 (by decide) (by decide)

/-- C8: for any fixed previous-month share, the Impulse score is antitone
in the current impulse share over `[0, 1]`, and increasing the share past
any of the breakpoints 0.1, 0.2, 0.3, 0.4 strictly decreases it. -/
theorem impulse_score_antitone (q p₁ p₂ : ℚ) (h0 : 0 ≤ p₁) (h12 : p₁ ≤ p₂) (h1 : p₂ ≤ 1) :
    impulseFull p₂ q ≤ impulseFull p₁ q ∧
    ∀ b : ℚ, (b = 0.1 ∨ b = 0.2 ∨ b = 0.3 ∨ b = 0.4) → p₁ ≤ b → b < p₂ →
      impulseFull p₂ q < impulseFull p₁ q :=
  ⟨impulseFull_antitone q h12, fun _ hb hb1 hb2 => impulseFull_strict q hb hb1 hb2⟩

/-- C8 witness: at previous share 1, moving the share from 0.1 to 0.5
weakly and strictly decreases the Impulse score. -/
theorem impulse_score_antitone_witness :
    impulseFull 0.5 1 ≤ impulseFull 0.1 1 ∧ impulseFull 0.5 1 < impulseFull 0.1 1 :=
  ⟨(impulse_score_antitone 1 0.1 0.5 (by norm_num) (by norm_num) (by norm_num)).1,
   (impulse_score_antitone 1 0.1 0.5 (by norm_num) (by norm_num) (by norm_num)).2 0.1
     (Or.inl rfl) (le_refl _) (by norm_num)⟩

/-- C9: every division of the engine is guarded — a zero denominator
yields the specified fallback (impulse shares 0, commitment 1, reserve
months 0, mean daily expense 0), and days elapsed is at least 1 on any
valid calendar date; the embedding is a total function by construction. -/
theorem division_guards_total (txs : List Transaction) (now : RefDate) :
    ((getMonthlyStats txs now.currentMonth).totalExpense = 0 → impulsePercent txs now = 0) ∧
    ((getMonthlyStats txs now.prevMonth).totalExpense = 0 → prevImpulsePercent txs now = 0) ∧
    ((getMonthlyStats txs now.currentMonth).totalIncome = 0 → commitment txs now = 1) ∧
    (avgMonthlyExpense txs now = 0 → reserveMonths txs now = 0) ∧
    (dailyValues txs now = [] → avgDaily txs now = 0) ∧
    (validRefDate now → 1 ≤ daysElapsed now) := by
  refine ⟨?_, ?_, ?_, ?_, ?_, ?_⟩
  · intro h
    simp [impulsePercent, h]
  · intro h
    simp [prevImpulsePercent, h]
  · intro h
    simp [commitment, h]
  · intro h
    simp [reserveMonths, h]
  · intro h
    simp [avgDaily, h]
  · intro h
    exact le_min h.1 h.2

/-- C9 witness: all the fallbacks fire on the empty transaction list. -/
theorem division_guards_total_witness :
    impulsePercent [] d0 = 0 ∧ prevImpulsePercent [] d0 = 0 ∧ commitment [] d0 = 1 ∧
    reserveMonths [] d0 = 0 ∧ avgDaily [] d0 = 0 ∧ 1 ≤ daysElapsed d0 := by
  have h := division_guards_total [] d0
  exact ⟨h.1 rfl, h.2.1 rfl, h.2.2.1 rfl,
    h.2.2.2.1 (by simp [avgMonthlyExpense, last3Months, getMonthlyStats]),
    h.2.2.2.2.1 rfl, h.2.2.2.2.2 (by decide)⟩

/-- C10: whenever the current month has at least one transaction, the
reported Growth score is one of 65, 75 or 90 — the 40 fallback branch is
unreachable, since the improved-pillar count is a natural number. -/
theorem growth_score_reachable_values (txs : List Transaction) (now : RefDate)
    (h : (currentMonthTxs txs now).length ≠ 0) :
    ((useFinancialScore txs now).pillars.map PillarScore.score).getD 4 0 = 65 ∨
    ((useFinancialScore txs now).pillars.map PillarScore.score).getD 4 0 = 75 ∨
    ((useFinancialScore txs now).pillars.map PillarScore.score).getD 4 0 = 90 := by
  have hg : ((useFinancialScore txs now).pillars.map PillarScore.score).getD 4 0 =
      growthScore txs now := by
    rw [pillars_map_score txs now h]
    simp only [List.getD_cons_succ, List.getD_cons_zero]
  rw [hg]
  simp only [growthScore]
  split_ifs with h1 h2 h3 h4
  · exact Or.inr (Or.inl rfl)
  · exact Or.inr (Or.inr rfl)
  · exact Or.inr (Or.inl rfl)
  · exact Or.inl rfl
  · exfalso
    omega

/-- C10 witness: on the `ex3` fixture the Growth score is one of the
three reachable values. -/
theorem growth_score_reachable_values_witness :
    ((useFinancialScore ex3 d0).pillars.map PillarScore.score).getD 4 0 = 65 ∨
    ((useFinancialScore ex3 d0).pillars.map PillarScore.score).getD 4 0 = 75 ∨
    ((useFinancialScore ex3 d0).pillars.map PillarScore.score).getD 4 0 = 90 :=
  growth_score_reachable_values ex3 d0 (by decide)

end FinFlow
